import Mathlib

/-!
Verification development for the btcp-server repository (Browser Tool
Calling Protocol relay).  The definitions below are a shallow embedding of
the TypeScript sources: `src/protocol.ts`, `src/errors.ts`, `src/server.ts`
(BTCPServer), `src/client.ts` (BTCPClient) and `src/executor.ts`
(ToolExecutor).  JavaScript dynamic values are modelled by the inductive
type `RValue`; JS `Map`s by association lists with `mget`/`mset`/`mdel`;
SSE push channels by `SSEChannel` records; effectful handlers by pure
functions returning the updated state together with the ordered list of
pushed messages and closed channels.
-/

/-- Model of a JavaScript/JSON dynamic value (the TS `unknown`).  Numbers
are modelled as integers: no fractional number is produced or inspected on
any code path treated here. -/
inductive RValue where
  | null
  | bool (b : Bool)
  | num (n : Int)
  | str (s : String)
  | arr (elems : List RValue)
  | obj (fields : List (String × RValue))

/-- `fields[key]` for a JS object modelled as an association list. -/
def lookupField (fields : List (String × RValue)) (key : String) : Option RValue :=
  match fields.find? (fun p => p.1 == key) with
  | some p => some p.2
  | none => none

/-- JS `String.prototype.startsWith`, over the character list of the
string. -/
def jsStartsWith (s pat : String) : Bool :=
  List.isPrefixOf pat.data s.data

/-- One character of the class `[A-Za-z0-9+/=]` from the base64 regex in
`ToolExecutor.isBase64Image`. -/
def isBase64Char (c : Char) : Bool :=
  c.isAlpha || c.isDigit || c == '+' || c == '/' || c == '='

mutual
/-- Model of the builtin `JSON.stringify` used by `serializeMessage` and
`ToolExecutor.normalizeResult`.  The builtin is platform code with no
source in this repository; the model is a standard compact JSON printer
(string escaping and the 2-space indentation of `JSON.stringify(v, null, 2)`
are omitted: no claim inspects the serialized text, only where it is
placed). -/
def jsonStringify : RValue → String
  | .null => "null"
  | .bool b => if b then "true" else "false"
  | .num n => toString n
  | .str s => "\"" ++ s ++ "\""
  | .arr elems => "[" ++ jsonStringifyList elems ++ "]"
  | .obj fields => "\x7b" ++ jsonStringifyFields fields ++ "\x7d"

/-- Comma-separated serialization of array elements. -/
def jsonStringifyList : List RValue → String
  | [] => ""
  | [v] => jsonStringify v
  | v :: rest => jsonStringify v ++ "," ++ jsonStringifyList rest

/-- Comma-separated serialization of object fields. -/
def jsonStringifyFields : List (String × RValue) → String
  | [] => ""
  | [(k, v)] => "\"" ++ k ++ "\":" ++ jsonStringify v
  | (k, v) :: rest => "\"" ++ k ++ "\":" ++ jsonStringify v ++ "," ++ jsonStringifyFields rest
end

-- `ErrorCodes` from `src/errors.ts`.
namespace ErrorCodes

def PARSE_ERROR : Int := -32700
def INVALID_REQUEST : Int := -32600
def METHOD_NOT_FOUND : Int := -32601
def INVALID_PARAMS : Int := -32602
def INTERNAL_ERROR : Int := -32603
def CONNECTION_ERROR : Int := -32000
def TIMEOUT_ERROR : Int := -32001
def SESSION_ERROR : Int := -32002
def EXECUTION_ERROR : Int := -32003
def TOOL_NOT_FOUND : Int := -32004
def VALIDATION_ERROR : Int := -32005
def PERMISSION_ERROR : Int := -32006

end ErrorCodes

/-- A JSON-RPC id: `string | number` (`src/types.ts`). -/
inductive JsonRpcId where
  | str (s : String)
  | num (n : Int)
deriving DecidableEq, Repr

/-- JS `String(id)`: identity on strings, decimal rendering on numbers.
Used by `handleToolResponse`, which keys the pending map by
`String(response.id)`. -/
def idToString : JsonRpcId → String
  | .str s => s
  | .num n => toString n

/-- `JsonRpcError` from `src/types.ts`.  The optional `data` field is
omitted: none of the code paths modelled here ever sets it. -/
structure JsonRpcError where
  code : Int
  message : String
deriving DecidableEq, Repr

/-- A classified JSON-RPC message (`src/types.ts` / the type guards of
`src/protocol.ts`): a request has `id` and `method`, a response `id`
without `method`, a notification `method` without `id`.  `params` of a
request is carried as a raw `RValue` object. -/
inductive JsonRpcMessage where
  | request (id : JsonRpcId) (method : String) (params : RValue)
  | response (id : JsonRpcId) (result : Option RValue) (error : Option JsonRpcError)
  | notification (method : String) (params : RValue)

/-- `createResponse` from `src/protocol.ts`. -/
def createResponse (id : JsonRpcId) (result : RValue) : JsonRpcMessage :=
  .response id (some result) none

/-- `createErrorResponse` from `src/protocol.ts` (the optional `data`
argument is never supplied on the modelled paths). -/
def createErrorResponse (id : JsonRpcId) (code : Int) (message : String) : JsonRpcMessage :=
  .response id none (some { code := code, message := message })

/-- `createTextContent` from `src/protocol.ts`, at the dynamic-value
level: the object `\x7btype:"text", text\x7d`. -/
def createTextContent (text : String) : RValue :=
  .obj [("type", .str "text"), ("text", .str text)]

/-- `createImageContent` from `src/protocol.ts`. -/
def createImageContent (data : String) (mimeType : String) : RValue :=
  .obj [("type", .str "image"), ("data", .str data), ("mimeType", .str mimeType)]

/-- `createToolCallResponse` from `src/protocol.ts`. -/
def createToolCallResponse (id : JsonRpcId) (content : List RValue) : JsonRpcMessage :=
  .response id (some (.obj [("content", .arr content), ("isError", .bool false)])) none

/-- `createToolCallErrorResponse` from `src/protocol.ts`: result with
`isError:true` and one text item, plus a paired top-level `error` field.
In the source `code` is an optional parameter defaulting to `-32603`;
callers that omit it pass `-32603` here. -/
def createToolCallErrorResponse (id : JsonRpcId) (errorMessage : String) (code : Int) :
    JsonRpcMessage :=
  .response id
    (some (.obj [("content", .arr [createTextContent errorMessage]), ("isError", .bool true)]))
    (some { code := code, message := errorMessage })

/-- `isValidJsonRpcMessage` from `src/protocol.ts`: the decoded value is
an object whose `jsonrpc` field is the string `"2.0"`. -/
def isValidJsonRpcMessage (v : RValue) : Bool :=
  match v with
  | .obj fields =>
    match lookupField fields "jsonrpc" with
    | some (.str s) => s == "2.0"
    | _ => false
  | _ => false

/-- A thrown `BTCPError` (`src/errors.ts`): a code and a message. -/
structure BTCPErr where
  code : Int
  message : String
deriving DecidableEq, Repr

/-- `parseMessage` from `src/protocol.ts`.  The input is the outcome of
the builtin `JSON.parse`: `none` when the byte stream is not JSON (the
builtin threw), `some v` when it decoded to the value `v`.  Both failure
branches construct a `BTCPParseError`, whose code is
`ErrorCodes.PARSE_ERROR`. -/
def parseMessage (parsed : Option RValue) : Except BTCPErr RValue :=
  match parsed with
  | none => .error { code := ErrorCodes.PARSE_ERROR, message := "Failed to parse JSON-RPC message" }
  | some v =>
    if isValidJsonRpcMessage v then .ok v
    else .error { code := ErrorCodes.PARSE_ERROR, message := "Invalid JSON-RPC message structure" }

/-- The code of the error of a failed parse, `none` on success. -/
def exceptErrCode (r : Except BTCPErr RValue) : Option Int :=
  match r with
  | .error e => some e.code
  | .ok _ => none

/-!
## ToolExecutor (`src/executor.ts`)
-/

/-- `ToolExecutor.isBTCPContent`: the value is an object whose `type`
field is `"text"`, `"image"` or `"resource"`.  (Non-objects, and arrays,
never satisfy the check in the source: `typeof value !== 'object'` rules
out primitives, and an array has no `type` property.) -/
def isBTCPContent (v : RValue) : Bool :=
  match v with
  | .obj fields =>
    match lookupField fields "type" with
    | some (.str t) => t == "text" || t == "image" || t == "resource"
    | _ => false
  | _ => false

/-- `ToolExecutor.isBase64Image`: the string has the `data:image/` data-URI
marker, or the regex `/^[A-Za-z0-9+/=]\x7b100,\x7d$/` matches
`str.slice(0, 200)` — i.e. the first `min(200, length)` characters are all
base64-shaped and number at least 100. -/
def isBase64Image (s : String) : Bool :=
  jsStartsWith s "data:image/" ||
    (decide (100 ≤ (s.data.take 200).length) && (s.data.take 200).all isBase64Char)

/-- `ToolExecutor.detectImageMimeType`: mime type by data-URI marker,
`image/png` by default. -/
def detectImageMimeType (data : String) : String :=
  if jsStartsWith data "data:image/png" then "image/png"
  else if jsStartsWith data "data:image/jpeg" then "image/jpeg"
  else if jsStartsWith data "data:image/gif" then "image/gif"
  else if jsStartsWith data "data:image/webp" then "image/webp"
  else if jsStartsWith data "data:image/svg" then "image/svg+xml"
  else "image/png"

/-- `ToolExecutor.normalizeResult`, clause for clause from the source:
an array whose first element passes `isBTCPContent` is returned as-is
(the source casts it to `BTCPContent[]`); any other array is
JSON-serialized into one text item; a lone content object is wrapped in a
one-element list; a string goes through the base64-image heuristic; any
other object is JSON-serialized into a text item; a remaining primitive
becomes a text item via JS `String(...)` (which agrees with JSON for
integers and booleans, and gives `"null"` for `null`). -/
def normalizeResult (result : RValue) : List RValue :=
  match result with
  | .arr [] => [createTextContent (jsonStringify (.arr []))]
  | .arr (x :: xs) =>
    if isBTCPContent x then x :: xs
    else [createTextContent (jsonStringify (.arr (x :: xs)))]
  | .obj fields =>
    if isBTCPContent (.obj fields) then [.obj fields]
    else [createTextContent (jsonStringify (.obj fields))]
  | .str s =>
    if isBase64Image s then [createImageContent s (detectImageMimeType s)]
    else [createTextContent s]
  | .num n => [createTextContent (toString n)]
  | .bool b => [createTextContent (if b then "true" else "false")]
  | .null => [createTextContent "null"]

/-- The `type` tag of a (content) object, for stating which kind of item
the normalizer produced. -/
def contentTypeTag (v : RValue) : Option String :=
  match v with
  | .obj fields =>
    match lookupField fields "type" with
    | some (.str t) => some t
    | _ => none
  | _ => none

/-- A tool handler (`ToolHandler` in `src/types.ts`): coroutine from an
arguments map to a result value, which may also throw.  The throw is
modelled by `Except BTCPErr`; a non-`BTCPError` exception is represented
by the code `0` with its message. -/
def ToolHandler : Type := RValue → Except BTCPErr RValue

/-- `ToolExecutor.execute`: look the name up in the handler table (throw
`BTCPToolNotFoundError` when absent), run the handler, normalize its
result; a handler exception other than `BTCPToolNotFoundError` is
re-wrapped as a `BTCPExecutionError` carrying the original message. -/
def ToolExecutor.execute (handlers : List (String × ToolHandler)) (name : String)
    (args : RValue) : Except BTCPErr (List RValue) :=
  match (handlers.find? (fun p => p.1 == name)) with
  | none => .error { code := ErrorCodes.TOOL_NOT_FOUND, message := "Tool not found: " ++ name }
  | some p =>
    match p.2 args with
    | .ok result => .ok (normalizeResult result)
    | .error e =>
      if e.code == ErrorCodes.TOOL_NOT_FOUND then .error e
      else .error { code := ErrorCodes.EXECUTION_ERROR, message := e.message }

/-- `BTCPClient.handleToolCall`: run the executor on `\x7bname, arguments\x7d`;
a success becomes `createToolCallResponse`, a failure becomes
`createToolCallErrorResponse(id, message)` — the source passes no code, so
the creator's default `-32603` is used. -/
def BTCPClient.handleToolCall (handlers : List (String × ToolHandler)) (id : JsonRpcId)
    (name : String) (args : RValue) : JsonRpcMessage :=
  match ToolExecutor.execute handlers name args with
  | .ok content => createToolCallResponse id content
  | .error e => createToolCallErrorResponse id e.message (-32603)

/-- The code of the top-level `error` field of a response message. -/
def responseErrorCode (m : JsonRpcMessage) : Option Int :=
  match m with
  | .response _ _ (some e) => some e.code
  | _ => none

/-!
## BTCPClient connection state (`src/client.ts`)
-/

/-- The connection-related fields of a `BTCPClient`, plus its pending
local request table (`pendingRequests`, keyed by the generated message
id).  The `resolve`/`reject` callbacks of a `PendingRequest` are effects;
a table entry is represented by its timer handle. -/
structure ClientState where
  eventSourceOpen : Bool
  connected : Bool
  reconnectAttempts : Nat
  maxReconnectAttempts : Nat
  autoReconnect : Bool
  reconnectDelay : Nat
  pendingRequests : List (String × Nat)
deriving DecidableEq, Repr

/-- The observable effects of a client operation: whether the
`EventSource` was closed, the emitted event names, and the rejections
issued to pending local requests as `(request id, error code)` pairs. -/
structure ClientEffects where
  closedEventSource : Bool
  emitted : List String
  rejections : List (String × Int)
deriving DecidableEq, Repr

/-- `BTCPClient.disconnect` (`src/client.ts` lines 231-240): close the
`EventSource`, clear `connected`, set `reconnectAttempts` to
`maxReconnectAttempts` (the in-source comment: "Prevent auto-reconnect"),
emit a `disconnect` event.  The body contains no operation on
`pendingRequests`, so the rejection list of the effects is empty. -/
def BTCPClient.disconnect (st : ClientState) : ClientState × ClientEffects :=
  ({ st with
      eventSourceOpen := false
      connected := false
      reconnectAttempts := st.maxReconnectAttempts },
   { closedEventSource := st.eventSourceOpen
     emitted := ["disconnect"]
     rejections := [] })

/-- `BTCPClient.handleReconnect`: returns the delay of the reconnect it
schedules, or `none` when it schedules nothing (auto-reconnect off, or
attempts exhausted). -/
def BTCPClient.handleReconnect (st : ClientState) : ClientState × Option Nat :=
  if !st.autoReconnect then (st, none)
  else if st.maxReconnectAttempts ≤ st.reconnectAttempts then (st, none)
  else
    let st' := { st with reconnectAttempts := st.reconnectAttempts + 1 }
    (st', some (st.reconnectDelay * 2 ^ (st'.reconnectAttempts - 1)))

/-- The timer installed by `BTCPClient.request`: on fire, delete the
pending entry and reject with a `BTCPTimeoutError`
(`ErrorCodes.TIMEOUT_ERROR`). -/
def BTCPClient.requestTimeoutFire (st : ClientState) (id : String) :
    ClientState × List (String × Int) :=
  match st.pendingRequests.find? (fun p => p.1 == id) with
  | none => (st, [])
  | some _ =>
    ({ st with pendingRequests := st.pendingRequests.filter (fun p => !(p.1 == id)) },
     [(id, ErrorCodes.TIMEOUT_ERROR)])

/-!
## SSE push channel (`src/server.ts`, `sendToClient`)
-/

/-- A server-push channel: the `ServerResponse` of the SSE connection,
observed through its `writableEnded` flag and the ordered list of written
frames. -/
structure SSEChannel where
  writableEnded : Bool
  frames : List String
deriving DecidableEq, Repr

/-- `serializeMessage` from `src/protocol.ts`: `JSON.stringify` of the
message.  Requests always carry their `params` object here;
responses carry `result`/`error` when present. -/
def serializeMessage (m : JsonRpcMessage) : String :=
  match m with
  | .request id method params =>
    jsonStringify (.obj [("jsonrpc", .str "2.0"),
      ("id", match id with | .str s => .str s | .num n => .num n),
      ("method", .str method), ("params", params)])
  | .response id result error =>
    jsonStringify (.obj ([("jsonrpc", .str "2.0"),
      ("id", match id with | .str s => .str s | .num n => .num n)] ++
      (match result with | some r => [("result", r)] | none => []) ++
      (match error with
       | some e => [("error", .obj [("code", .num e.code), ("message", .str e.message)])]
       | none => [])))
  | .notification method params =>
    jsonStringify (.obj [("jsonrpc", .str "2.0"), ("method", .str method), ("params", params)])

/-- `BTCPServer.sendToClient` (`src/server.ts` lines 658-663), at the
channel level: when the response stream has not ended, write exactly one
SSE data frame holding the serialized message; when it has ended, do
nothing.  The function is total: no branch raises. -/
def BTCPServer.sendToClient (ch : SSEChannel) (message : JsonRpcMessage) : SSEChannel :=
  if ch.writableEnded then ch
  else { ch with frames := ch.frames ++ ["data: " ++ serializeMessage message ++ "\n\n"] }

/-!
## BTCPServer state and routing (`src/server.ts`)

JS `Map`s are modelled by association lists.  `mset` models `Map.set`
(entry ordering is immaterial to the properties proved: the only ordered
iteration the claims touch is `agentClients.values()`, whose order is
preserved by `mset` for fresh keys).
-/

/-- `Map.get`. -/
def mget {α : Type} (m : List (String × α)) (k : String) : Option α :=
  match m.find? (fun p => p.1 == k) with
  | some p => some p.2
  | none => none

/-- `Map.set`: replace in place when the key is present, append
otherwise. -/
def mset {α : Type} (m : List (String × α)) (k : String) (v : α) : List (String × α) :=
  match m with
  | [] => [(k, v)]
  | (k', v') :: rest => if k' == k then (k, v) :: rest else (k', v') :: mset rest k v

/-- `Map.delete`. -/
def mdel {α : Type} (m : List (String × α)) (k : String) : List (String × α) :=
  m.filter (fun p => !(p.1 == k))

/-- The `clientType` of an SSE peer: `browser` (provider) or `agent`
(caller). -/
inductive ClientType where
  | browser
  | agent
deriving DecidableEq, Repr

/-- `SSEClient` from `src/types.ts`, without its `response` channel (the
channel is modelled separately by `SSEChannel`; pushes are reported as
`(client, message)` pairs). -/
structure SSEClient where
  id : String
  ctype : ClientType
  sessionId : String
deriving DecidableEq, Repr

/-- `PendingResponse` from `src/types.ts`: the relay-side pending route. -/
structure PendingResponse where
  agentId : String
  originalId : JsonRpcId
  timestamp : Nat
deriving DecidableEq, Repr

/-- `Session` from `src/types.ts`.  `tools` are raw descriptor values;
`pendingResponses` is keyed by the relay-internal id string. -/
structure Session where
  id : String
  browserClient : Option SSEClient
  agentClients : List (String × SSEClient)
  tools : List RValue
  pendingResponses : List (String × PendingResponse)
  createdAt : Nat

/-- The mutable state of a `BTCPServer`: its `sessions` and `clients`
maps (keep-alive timers are liveness plumbing no claim touches). -/
structure ServerState where
  sessions : List (String × Session)
  clients : List (String × SSEClient)

/-- A push instruction produced by a handler: the target client and the
message handed to `sendToClient`. -/
def Push : Type := SSEClient × JsonRpcMessage

/-- `BTCPServer.handleBrowserConnect`: create the session on first
provider attach; on an existing session with an incumbent provider, send
the incumbent a synthetic `SESSION_ERROR` response with id `"disconnect"`,
end its push channel (the returned close list), and install the new
client as `browserClient`. -/
def BTCPServer.handleBrowserConnect (st : ServerState) (client : SSEClient) (now : Nat) :
    ServerState × List Push × List String :=
  match mget st.sessions client.sessionId with
  | none =>
    let session : Session :=
      { id := client.sessionId, browserClient := some client, agentClients := []
        tools := [], pendingResponses := [], createdAt := now }
    ({ st with sessions := mset st.sessions client.sessionId session }, [], [])
  | some session =>
    let takeover : List Push × List String :=
      match session.browserClient with
      | some old =>
        ([(old, createErrorResponse (.str "disconnect") ErrorCodes.SESSION_ERROR
            "Another browser client connected to this session")], [old.id])
      | none => ([], [])
    let session' := { session with browserClient := some client }
    ({ st with sessions := mset st.sessions client.sessionId session' },
     takeover.1, takeover.2)

/-- `BTCPServer.findSenderClient`: a supplied `clientId` is looked up
directly; otherwise the first agent of the session, or failing that the
first connected client whose own `sessionId` matches. -/
def BTCPServer.findSenderClient (st : ServerState) (sessionId : String)
    (clientId : Option String) : Option SSEClient :=
  match clientId with
  | some cid => mget st.clients cid
  | none =>
    let fromSession : Option SSEClient :=
      match mget st.sessions sessionId with
      | some session =>
        match session.agentClients with
        | (_, a) :: _ => some a
        | [] => none
      | none => none
    match fromSession with
    | some a => some a
    | none =>
      match st.clients.find? (fun p => p.2.sessionId == sessionId) with
      | some p => some p.2
      | none => none

/-- `BTCPServer.handleToolsRegister`: requires a session with an attached
provider (no check of who sent the message); replaces `session.tools`
wholesale, notifies every agent with `tools/updated`, acknowledges to the
provider.  A `params` object without a `tools` array raises a `TypeError`
handled at the transport layer (HTTP 400); that path carries no push and
is modelled as a no-op on the session. -/
def BTCPServer.handleToolsRegister (session : Option Session) (id : JsonRpcId)
    (params : RValue) : Option Session × List Push :=
  match session with
  | none => (none, [])
  | some s =>
    match s.browserClient with
    | none => (some s, [])
    | some browser =>
      match params with
      | .obj fields =>
        match lookupField fields "tools" with
        | some (.arr tools) =>
          let s' := { s with tools := tools }
          (some s',
           (s.agentClients.map (fun p =>
             (p.2, JsonRpcMessage.notification "tools/updated" (.obj [("tools", .arr tools)]))))
           ++ [(browser, createResponse id
                 (.obj [("success", .bool true), ("registered", .num tools.length)]))])
        | _ => (some s, [])
      | _ => (some s, [])

/-- `BTCPServer.handleToolsCall`, the synchronous part: without a session
or provider, a `SESSION_ERROR` response to the sender (or the first
agent); otherwise insert the pending route under a fresh internal id
(`internalId` stands for the `generateMessageId()` result) and forward
the request to the provider with its id rewritten to the internal one.
The timer it schedules is `BTCPServer.toolsCallTimeout` below. -/
def BTCPServer.handleToolsCall (session : Option Session) (id : JsonRpcId) (params : RValue)
    (senderClient : Option SSEClient) (internalId : String) (now : Nat) :
    Option Session × List Push :=
  let noBrowser : Option Session → List Push := fun s? =>
    let errorResponse := createErrorResponse id ErrorCodes.SESSION_ERROR
      "No browser client connected to this session"
    match senderClient with
    | some sender => [(sender, errorResponse)]
    | none =>
      match s? with
      | some s =>
        match s.agentClients with
        | (_, a) :: _ => [(a, errorResponse)]
        | [] => []
      | none => []
  match session with
  | none => (none, noBrowser none)
  | some s =>
    match s.browserClient with
    | none => (some s, noBrowser (some s))
    | some browser =>
      let agentId := match senderClient with | some c => c.id | none => ""
      let pending : PendingResponse := { agentId := agentId, originalId := id, timestamp := now }
      let s' := { s with pendingResponses := mset s.pendingResponses internalId pending }
      (some s', [(browser, JsonRpcMessage.request (.str internalId) "tools/call" params)])

/-- The timer body scheduled by `handleToolsCall` (`src/server.ts` lines
478-491): when the pending route is still present, remove it and — if the
recorded agent is still in the session — push a `TIMEOUT_ERROR` response
carrying the original id. -/
def BTCPServer.toolsCallTimeout (session : Session) (internalId : String) :
    Session × List Push :=
  match mget session.pendingResponses internalId with
  | none => (session, [])
  | some pending =>
    let session' := { session with
      pendingResponses := mdel session.pendingResponses internalId }
    match mget session.agentClients pending.agentId with
    | none => (session', [])
    | some agent =>
      (session', [(agent, createErrorResponse pending.originalId ErrorCodes.TIMEOUT_ERROR
        "Tool execution timeout")])

/-- `BTCPServer.handleToolsList`, the synchronous part: no session — an
empty list to the sender; provider attached — forward under a fresh
internal id exactly as `handleToolsCall` (the timer being
`BTCPServer.toolsListTimeout`); no provider — answer at once with the
cached `session.tools`. -/
def BTCPServer.handleToolsList (session : Option Session) (id : JsonRpcId) (params : RValue)
    (senderClient : Option SSEClient) (internalId : String) (now : Nat) :
    Option Session × List Push :=
  match session with
  | none =>
    (none,
     match senderClient with
     | some sender => [(sender, createResponse id (.obj [("tools", .arr [])]))]
     | none => [])
  | some s =>
    match s.browserClient with
    | some browser =>
      let agentId := match senderClient with | some c => c.id | none => ""
      let pending : PendingResponse := { agentId := agentId, originalId := id, timestamp := now }
      let s' := { s with pendingResponses := mset s.pendingResponses internalId pending }
      (some s', [(browser, JsonRpcMessage.request (.str internalId) "tools/list" params)])
    | none =>
      let response := createResponse id (.obj [("tools", .arr s.tools)])
      (some s,
       match senderClient with
       | some sender => [(sender, response)]
       | none =>
         match s.agentClients with
         | (_, a) :: _ => [(a, response)]
         | [] => [])

/-- The timer body scheduled by `handleToolsList` (`src/server.ts` lines
412-422): when the pending route is still present, remove it and — if the
recorded agent is still in the session — push a success response with the
cached tool list under the original id. -/
def BTCPServer.toolsListTimeout (session : Session) (internalId : String) :
    Session × List Push :=
  match mget session.pendingResponses internalId with
  | none => (session, [])
  | some pending =>
    let session' := { session with
      pendingResponses := mdel session.pendingResponses internalId }
    match mget session.agentClients pending.agentId with
    | none => (session', [])
    | some agent =>
      (session', [(agent, createResponse pending.originalId
        (.obj [("tools", .arr session.tools)]))])

/-- `BTCPServer.handleToolResponse`: look the response id up in the
pending table (as a string); when present, remove the route and — if the
recorded agent is still attached to the session — forward the response
with the caller's original id restored. -/
def BTCPServer.handleToolResponse (session : Option Session) (id : JsonRpcId)
    (result : Option RValue) (error : Option JsonRpcError) :
    Option Session × List Push :=
  match session with
  | none => (none, [])
  | some s =>
    match mget s.pendingResponses (idToString id) with
    | none => (some s, [])
    | some pending =>
      let s' := { s with pendingResponses := mdel s.pendingResponses (idToString id) }
      match mget s.agentClients pending.agentId with
      | none => (some s', [])
      | some agent =>
        (some s', [(agent, JsonRpcMessage.response pending.originalId result error)])

/-- `BTCPServer.handleSessionJoin`: resolve the sending client (by
`clientId`, else the first agent attached under `currentSessionId`); an
unknown target session draws a `SESSION_ERROR` response naming it; else
the client is added to the target session's `agentClients` — its own
`sessionId` is deliberately left unchanged (in-source comment) — and a
success response carries the target id and a snapshot of its tools. -/
def BTCPServer.handleSessionJoin (st : ServerState) (currentSessionId : String)
    (id : JsonRpcId) (targetSessionId : String) (clientId : Option String) :
    ServerState × List Push :=
  let client : Option SSEClient :=
    match clientId with
    | some cid => mget st.clients cid
    | none =>
      match st.clients.find? (fun p =>
        p.2.sessionId == currentSessionId && p.2.ctype == ClientType.agent) with
      | some p => some p.2
      | none => none
  match client with
  | none => (st, [])
  | some c =>
    match mget st.sessions targetSessionId with
    | none =>
      (st, [(c, createErrorResponse id ErrorCodes.SESSION_ERROR
        ("Session not found: " ++ targetSessionId))])
    | some target =>
      let target' := { target with agentClients := mset target.agentClients c.id c }
      ({ st with sessions := mset st.sessions targetSessionId target' },
       [(c, createResponse id (.obj [("success", .bool true),
         ("sessionId", .str targetSessionId), ("tools", .arr target.tools)]))])

/-- `BTCPServer.handleDisconnect`: drop the keep-alive timer (not
modelled), then look up the session stored under the client's **own**
`sessionId`.  If the client is that session's provider, clear the slot
and notify that session's agents; otherwise delete the client from that
session's `agentClients`.  Delete the session when left with no provider
and no agents, and finally remove the client from the `clients` map.
Sessions the client joined under other ids are not visited. -/
def BTCPServer.handleDisconnect (st : ServerState) (clientId : String) :
    ServerState × List Push :=
  match mget st.clients clientId with
  | none => (st, [])
  | some client =>
    let afterSession : List (String × Session) × List Push :=
      match mget st.sessions client.sessionId with
      | none => (st.sessions, [])
      | some session =>
        let isOwnBrowser : Bool :=
          match session.browserClient with
          | some b => b.id == clientId
          | none => false
        let step : Session × List Push :=
          if isOwnBrowser then
            ({ session with browserClient := none },
             session.agentClients.map (fun p =>
               (p.2, JsonRpcMessage.notification "browser/disconnected"
                 (.obj [("sessionId", .str session.id)]))))
          else
            ({ session with agentClients := mdel session.agentClients clientId }, [])
        let session' := step.1
        if session'.browserClient.isNone && session'.agentClients.isEmpty then
          (mdel st.sessions client.sessionId, step.2)
        else
          (mset st.sessions client.sessionId session', step.2)
    ({ sessions := afterSession.1, clients := mdel st.clients clientId },
     afterSession.2)

/-- Write an updated session back into the state under its routing key
(models the in-place mutation of the session object shared with the
`sessions` map). -/
def putSession (st : ServerState) (sessionId : String) (s? : Option Session) : ServerState :=
  match s? with
  | none => st
  | some s => { st with sessions := mset st.sessions sessionId s }

/-- `BTCPServer.routeMessage`: responses go to `handleToolResponse`,
requests dispatch by method, notifications (and unknown methods) are
dropped.  `internalId` stands for the `generateMessageId()` value drawn
when a request is forwarded; `now` for `Date.now()`.  The `ping` arm
(`handlePing`) answers `createPongResponse` to the sender; its pong
timestamp is `now`. -/
def BTCPServer.routeMessage (st : ServerState) (sessionId : String) (msg : JsonRpcMessage)
    (clientId : Option String) (internalId : String) (now : Nat) :
    ServerState × List Push :=
  let session := mget st.sessions sessionId
  let senderClient := BTCPServer.findSenderClient st sessionId clientId
  match msg with
  | .response id result error =>
    let r := BTCPServer.handleToolResponse session id result error
    (putSession st sessionId r.1, r.2)
  | .notification _ _ => (st, [])
  | .request id method params =>
    if method == "tools/register" then
      let r := BTCPServer.handleToolsRegister session id params
      (putSession st sessionId r.1, r.2)
    else if method == "tools/list" then
      let r := BTCPServer.handleToolsList session id params senderClient internalId now
      (putSession st sessionId r.1, r.2)
    else if method == "tools/call" then
      let r := BTCPServer.handleToolsCall session id params senderClient internalId now
      (putSession st sessionId r.1, r.2)
    else if method == "session/join" then
      match params with
      | .obj fields =>
        match lookupField fields "sessionId" with
        | some (.str target) => BTCPServer.handleSessionJoin st sessionId id target clientId
        | _ => (st, [])
      | _ => (st, [])
    else if method == "ping" then
      let pong := createResponse id (.obj [("pong", .bool true), ("timestamp", .num now)])
      match senderClient with
      | some sender => (st, [(sender, pong)])
      | none =>
        match session with
        | some s =>
          match s.browserClient with
          | some browser => (st, [(browser, pong)])
          | none => (st, [])
        | none => (st, [])
    else (st, [])

/-!
## Association-list map lemmas
-/

/-- Looking up the key just set yields the value set. -/
theorem mget_mset_self {α : Type} (m : List (String × α)) (k : String) (v : α) :
    mget (mset m k v) k = some v := by
  induction m with
  | nil => simp [mget, mset, List.find?]
  | cons head tail ih =>
    obtain ⟨k', v'⟩ := head
    cases h : k' == k with
    | true => simp [mset, h, mget, List.find?]
    | false =>
      simpa [mset, h, mget, List.find?] using ih

/-- Setting one key leaves lookups of other keys unchanged. -/
theorem mget_mset_of_ne {α : Type} (m : List (String × α)) (k k' : String) (v : α)
    (h : k' ≠ k) : mget (mset m k v) k' = mget m k' := by
  induction m with
  | nil =>
    have hkk' : (k == k') = false := by simpa using (Ne.symm h)
    simp [mget, mset, List.find?, hkk']
  | cons head tail ih =>
    obtain ⟨k₀, v₀⟩ := head
    cases h0 : k₀ == k with
    | true =>
      have hkk' : (k == k') = false := by
        simpa using (Ne.symm h)
      have hk0k' : (k₀ == k') = false := by
        have : k₀ = k := by simpa using h0
        simpa [this] using (Ne.symm h)
      simp [mset, h0, mget, List.find?, hkk', hk0k']
    | false =>
      cases h1 : k₀ == k' with
      | true => simp [mset, h0, mget, List.find?, h1]
      | false => simpa [mset, h0, mget, List.find?, h1] using ih

/-- Looking up a deleted key yields nothing. -/
theorem mget_mdel_self {α : Type} (m : List (String × α)) (k : String) :
    mget (mdel m k) k = none := by
  induction m with
  | nil => simp [mget, mdel, List.find?]
  | cons head tail ih =>
    obtain ⟨k', v'⟩ := head
    cases h : k' == k with
    | true => simpa [mdel, h, mget, List.find?] using ih
    | false => simpa [mdel, h, mget, List.find?] using ih

/-- Deleting one key leaves lookups of other keys unchanged. -/
theorem mget_mdel_of_ne {α : Type} (m : List (String × α)) (k k' : String)
    (h : k' ≠ k) : mget (mdel m k) k' = mget m k' := by
  induction m with
  | nil => simp [mget, mdel, List.find?]
  | cons head tail ih =>
    obtain ⟨k₀, v₀⟩ := head
    cases h0 : k₀ == k with
    | true =>
      have hk0k' : (k₀ == k') = false := by
        have : k₀ = k := by simpa using h0
        simpa [this] using (Ne.symm h)
      simpa [mdel, h0, mget, List.find?, hk0k'] using ih
    | false =>
      cases h1 : k₀ == k' with
      | true => simp [mdel, h0, mget, List.find?, h1]
      | false => simpa [mdel, h0, mget, List.find?, h1] using ih

/-!
## Shared concrete peers and sessions for witnesses and counterexamples
-/

/-- A provider peer attached under session id `"E"`. -/
def exBrowser : SSEClient := { id := "b1", ctype := ClientType.browser, sessionId := "E" }

/-- A caller peer that attached under its **own** session id `"A"` and
joined session `"E"` (the shape produced by `session/join`, which leaves
`client.sessionId` unchanged). -/
def exCaller : SSEClient := { id := "c1", ctype := ClientType.agent, sessionId := "A" }

/-- Session `"E"`: provider `exBrowser`, one joined caller `exCaller`. -/
def exSessionE : Session :=
  { id := "E", browserClient := some exBrowser, agentClients := [("c1", exCaller)]
    tools := [], pendingResponses := [], createdAt := 0 }

/-- The relay state holding `exSessionE` and both connected peers. -/
def exState : ServerState :=
  { sessions := [("E", exSessionE)], clients := [("b1", exBrowser), ("c1", exCaller)] }

/-!
## C1 — response correlation restores the caller's original id
-/

/-- C1: a caller request forwarded to the provider under a rewritten
internal id creates a pending route recording the original id; when the
provider's response arrives while that entry is present, the relay
removes the entry and the response pushed to the originating caller
carries the caller's original id, never the internal one. -/
theorem claim1_response_carries_original_id
    (s : Session) (browser agent : SSEClient) (rid : JsonRpcId) (params : RValue)
    (internalId : String) (now : Nat) (result : Option RValue) (error : Option JsonRpcError)
    (hb : s.browserClient = some browser)
    (ha : mget s.agentClients agent.id = some agent) :
    ∃ s1 : Session,
      (BTCPServer.handleToolsCall (some s) rid params (some agent) internalId now).1 = some s1 ∧
      (BTCPServer.handleToolsCall (some s) rid params (some agent) internalId now).2 =
        [(browser, JsonRpcMessage.request (.str internalId) "tools/call" params)] ∧
      mget s1.pendingResponses internalId =
        some ⟨agent.id, rid, now⟩ ∧
      (BTCPServer.handleToolResponse (some s1) (.str internalId) result error).1 =
        some { s1 with pendingResponses := mdel s1.pendingResponses internalId } ∧
      mget (mdel s1.pendingResponses internalId) internalId = none ∧
      (BTCPServer.handleToolResponse (some s1) (.str internalId) result error).2 =
        [(agent, JsonRpcMessage.response rid result error)] := by
  refine ⟨{ s with pendingResponses := mset s.pendingResponses internalId ⟨agent.id, rid, now⟩ }, ?_, ?_, ?_, ?_, ?_, ?_⟩
  · simp [BTCPServer.handleToolsCall, hb]
  · simp [BTCPServer.handleToolsCall, hb]
  · exact mget_mset_self _ _ _
  · simp [BTCPServer.handleToolResponse, idToString, mget_mset_self, ha]
  · exact mget_mdel_self _ _
  · simp [BTCPServer.handleToolResponse, idToString, mget_mset_self, ha]

/-- C1 witness: the round trip at a concrete session, request id `7` and
internal id `"int-1"`. -/
theorem claim1_witness :
    ∃ s1 : Session,
      (BTCPServer.handleToolsCall (some exSessionE) (.num 7) (.obj []) (some exCaller)
        "int-1" 0).1 = some s1 ∧
      (BTCPServer.handleToolsCall (some exSessionE) (.num 7) (.obj []) (some exCaller)
        "int-1" 0).2 =
        [(exBrowser, JsonRpcMessage.request (.str "int-1") "tools/call" (.obj []))] ∧
      mget s1.pendingResponses "int-1" =
        some ⟨exCaller.id, .num 7, 0⟩ ∧
      (BTCPServer.handleToolResponse (some s1) (.str "int-1") (some (.obj [])) none).1 =
        some { s1 with pendingResponses := mdel s1.pendingResponses "int-1" } ∧
      mget (mdel s1.pendingResponses "int-1") "int-1" = none ∧
      (BTCPServer.handleToolResponse (some s1) (.str "int-1") (some (.obj [])) none).2 =
        [(exCaller, JsonRpcMessage.response (.num 7) (some (.obj [])) none)] :=
  claim1_response_carries_original_id exSessionE exBrowser exCaller (.num 7) (.obj [])
    "int-1" 0 (some (.obj [])) none rfl rfl

/-!
## C2 — provider takeover
-/

/-- C2: a session holds at most one provider (it is a single optional
field); when a second provider attaches to an existing session, the
incumbent is pushed a synthetic error response of kind session
(`-32002`), its push channel is closed, and the new peer becomes the
session's provider. -/
theorem claim2_provider_takeover
    (st : ServerState) (client old : SSEClient) (session : Session) (now : Nat)
    (hs : mget st.sessions client.sessionId = some session)
    (hold : session.browserClient = some old) :
    mget (BTCPServer.handleBrowserConnect st client now).1.sessions client.sessionId =
      some { session with browserClient := some client } ∧
    (BTCPServer.handleBrowserConnect st client now).2.1 =
      [(old, createErrorResponse (.str "disconnect") ErrorCodes.SESSION_ERROR
        "Another browser client connected to this session")] ∧
    (BTCPServer.handleBrowserConnect st client now).2.2 = [old.id] ∧
    ErrorCodes.SESSION_ERROR = -32002 := by
  refine ⟨?_, ?_, ?_, rfl⟩
  · simp [BTCPServer.handleBrowserConnect, hs, hold, mget_mset_self]
  · simp [BTCPServer.handleBrowserConnect, hs, hold]
  · simp [BTCPServer.handleBrowserConnect, hs, hold]

/-- The second provider of the C2 witness, attaching to session `"E"`. -/
def exBrowser2 : SSEClient := { id := "b2", ctype := ClientType.browser, sessionId := "E" }

/-- C2 witness: a second provider `exBrowser2` attaches to session `"E"`
whose incumbent is `exBrowser`. -/
theorem claim2_witness :
    mget (BTCPServer.handleBrowserConnect exState exBrowser2 5).1.sessions "E" =
      some { exSessionE with browserClient := some exBrowser2 } ∧
    (BTCPServer.handleBrowserConnect exState exBrowser2 5).2.1 =
      [(exBrowser, createErrorResponse (.str "disconnect") ErrorCodes.SESSION_ERROR
        "Another browser client connected to this session")] ∧
    (BTCPServer.handleBrowserConnect exState exBrowser2 5).2.2 = ["b1"] ∧
    ErrorCodes.SESSION_ERROR = -32002 :=
  claim2_provider_takeover exState exBrowser2 exBrowser exSessionE 5 rfl rfl

/-!
## C3 — forward-timeout behaviour
-/

/-- C3: when the forward timer fires while the pending route is present
and the recorded caller is attached, the `tools/call` path removes the
entry and pushes a timeout error (`-32001`) under the original id, while
the `tools/list` path removes the entry and pushes a success response
carrying the session's cached tool list under the original id. -/
theorem claim3_timeout_paths
    (s : Session) (internalId : String) (pending : PendingResponse) (agent : SSEClient)
    (hp : mget s.pendingResponses internalId = some pending)
    (ha : mget s.agentClients pending.agentId = some agent) :
    (BTCPServer.toolsCallTimeout s internalId).1.pendingResponses =
      mdel s.pendingResponses internalId ∧
    mget (BTCPServer.toolsCallTimeout s internalId).1.pendingResponses internalId = none ∧
    (BTCPServer.toolsCallTimeout s internalId).2 =
      [(agent, createErrorResponse pending.originalId ErrorCodes.TIMEOUT_ERROR
        "Tool execution timeout")] ∧
    ErrorCodes.TIMEOUT_ERROR = -32001 ∧
    (BTCPServer.toolsListTimeout s internalId).1.pendingResponses =
      mdel s.pendingResponses internalId ∧
    (BTCPServer.toolsListTimeout s internalId).2 =
      [(agent, createResponse pending.originalId (.obj [("tools", .arr s.tools)]))] := by
  refine ⟨?_, ?_, ?_, rfl, ?_, ?_⟩
  · simp [BTCPServer.toolsCallTimeout, hp, ha]
  · simp [BTCPServer.toolsCallTimeout, hp, ha, mget_mdel_self]
  · simp [BTCPServer.toolsCallTimeout, hp, ha]
  · simp [BTCPServer.toolsListTimeout, hp, ha]
  · simp [BTCPServer.toolsListTimeout, hp, ha]

/-- The pending route of the C3 witness: caller `"c1"`, original id `9`. -/
def exPending9 : PendingResponse := { agentId := "c1", originalId := .num 9, timestamp := 0 }

/-- `exSessionE` with the single pending route `"int-9" := exPending9`. -/
def exSessionPending : Session := { exSessionE with pendingResponses := [("int-9", exPending9)] }

/-- C3 witness: a session with one pending route for caller `exCaller`
with original id `9` and internal id `"int-9"`. -/
theorem claim3_witness :
    (BTCPServer.toolsCallTimeout exSessionPending "int-9").1.pendingResponses =
      mdel exSessionPending.pendingResponses "int-9" ∧
    mget (BTCPServer.toolsCallTimeout exSessionPending "int-9").1.pendingResponses
      "int-9" = none ∧
    (BTCPServer.toolsCallTimeout exSessionPending "int-9").2 =
      [(exCaller, createErrorResponse (.num 9) ErrorCodes.TIMEOUT_ERROR
        "Tool execution timeout")] ∧
    ErrorCodes.TIMEOUT_ERROR = -32001 ∧
    (BTCPServer.toolsListTimeout exSessionPending "int-9").1.pendingResponses =
      mdel exSessionPending.pendingResponses "int-9" ∧
    (BTCPServer.toolsListTimeout exSessionPending "int-9").2 =
      [(exCaller, createResponse (.num 9) (.obj [("tools", .arr exSessionPending.tools)]))] :=
  claim3_timeout_paths exSessionPending "int-9" exPending9 exCaller rfl rfl

/-!
## C4 — tool-call failure responses drop the execution error code
-/

/-- C4 counterexample: calling the unregistered tool `"x"` produces a
response whose top-level error code is `-32603` (the creator's default),
not the execution error code `-32004` demanded by the claim — `-32004`
appears nowhere in the response. -/
theorem claim4_counterexample :
    BTCPClient.handleToolCall [] (.str "r1") "x" (.obj []) =
      createToolCallErrorResponse (.str "r1") "Tool not found: x" (-32603) ∧
    responseErrorCode (BTCPClient.handleToolCall [] (.str "r1") "x" (.obj [])) =
      some (-32603) ∧
    some (-32603 : Int) ≠ some (-32004 : Int) ∧
    ErrorCodes.TOOL_NOT_FOUND = -32004 := by
  refine ⟨rfl, rfl, by decide, rfl⟩

/-- C4 amended: every failed `tools/call` yields
`result = \x7bcontent:[one text item with the failure message], isError:true\x7d`
plus a paired top-level `error` field — but the error code is always the
creator's default `-32603`, regardless of the execution error's own code;
in particular an unregistered tool throws `-32004` with message
`Tool not found: <name>`, and the response keeps the message while
replacing the code by `-32603`. -/
theorem claim4_amended_default_code
    (handlers : List (String × ToolHandler)) (id : JsonRpcId) (name : String) (args : RValue)
    (e : BTCPErr) (he : ToolExecutor.execute handlers name args = .error e) :
    BTCPClient.handleToolCall handlers id name args =
      createToolCallErrorResponse id e.message (-32603) ∧
    responseErrorCode (BTCPClient.handleToolCall handlers id name args) = some (-32603) ∧
    (handlers.find? (fun p => p.1 == name) = none →
      e = { code := ErrorCodes.TOOL_NOT_FOUND, message := "Tool not found: " ++ name }) := by
  refine ⟨?_, ?_, ?_⟩
  · simp [BTCPClient.handleToolCall, he]
  · simp [BTCPClient.handleToolCall, he, responseErrorCode, createToolCallErrorResponse]
  · intro hnone
    rw [ToolExecutor.execute, hnone] at he
    exact (Except.error.injEq _ _).mp he.symm

/-- C4 witness: the amended statement at the empty handler table and tool
name `"x"`. -/
theorem claim4_witness :
    BTCPClient.handleToolCall [] (.num 3) "x" (.obj []) =
      createToolCallErrorResponse (.num 3) "Tool not found: x" (-32603) ∧
    responseErrorCode (BTCPClient.handleToolCall [] (.num 3) "x" (.obj [])) =
      some (-32603) ∧
    (([] : List (String × ToolHandler)).find? (fun p => p.1 == "x") = none →
      ({ code := ErrorCodes.TOOL_NOT_FOUND, message := "Tool not found: x" } : BTCPErr) =
        { code := ErrorCodes.TOOL_NOT_FOUND, message := "Tool not found: " ++ "x" }) :=
  claim4_amended_default_code [] (.num 3) "x" (.obj [])
    { code := ErrorCodes.TOOL_NOT_FOUND, message := "Tool not found: x" } rfl

/-!
## C5 — disconnect cleanup misses joined sessions
-/

/-- C5 counterexample: the caller `exCaller` attached under its own id
`"A"` and joined session `"E"`.  When its push channel closes, the relay
looks up session `"A"` (absent) and removes nothing from session `"E"`:
the caller stays in `"E"`'s caller map.  After the provider also
disconnects, session `"E"` persists with no provider and no connected
peer at all — refuting both the removal clause and the iff of the
claim. -/
theorem claim5_counterexample :
    (BTCPServer.handleDisconnect exState "c1").1.sessions.map Prod.fst = ["E"] ∧
    (mget (BTCPServer.handleDisconnect exState "c1").1.sessions "E").map
      (fun s => mget s.agentClients "c1") = some (some exCaller) ∧
    mget (BTCPServer.handleDisconnect exState "c1").1.clients "c1" = none ∧
    (BTCPServer.handleDisconnect
      (BTCPServer.handleDisconnect exState "c1").1 "b1").1.clients = [] ∧
    (mget (BTCPServer.handleDisconnect
      (BTCPServer.handleDisconnect exState "c1").1 "b1").1.sessions "E").isSome = true ∧
    (mget (BTCPServer.handleDisconnect
      (BTCPServer.handleDisconnect exState "c1").1 "b1").1.sessions "E").map
      (fun s => s.browserClient) = some none := by
  refine ⟨rfl, rfl, rfl, by decide, rfl, rfl⟩

/-- The session as `handleDisconnect` leaves it when the disconnecting
client was one of its callers. -/
def callerRemoved (session : Session) (clientId : String) : Session :=
  { session with agentClients := mdel session.agentClients clientId }

/-- C5 amended: on push-channel close the relay cleans up only the
session stored under the client's **own** attach-time `sessionId`: when
the client is not that session's provider it is deleted from that
session's caller map, the session is deleted iff left with no provider
and no callers, and every other session — in particular any session the
caller joined under a different id — is untouched. -/
theorem claim5_amended_own_session_cleanup
    (st : ServerState) (clientId : String) (client : SSEClient) (session : Session)
    (hc : mget st.clients clientId = some client)
    (hs : mget st.sessions client.sessionId = some session)
    (hnb : (match session.browserClient with
            | some b => b.id == clientId
            | none => false) = false) :
    (BTCPServer.handleDisconnect st clientId).1.sessions =
      (if (callerRemoved session clientId).browserClient.isNone &&
          (callerRemoved session clientId).agentClients.isEmpty
       then mdel st.sessions client.sessionId
       else mset st.sessions client.sessionId (callerRemoved session clientId)) ∧
    (BTCPServer.handleDisconnect st clientId).1.clients = mdel st.clients clientId ∧
    (∀ k, k ≠ client.sessionId →
      mget (BTCPServer.handleDisconnect st clientId).1.sessions k = mget st.sessions k) ∧
    (BTCPServer.handleDisconnect st clientId).2 = [] := by
  refine ⟨?_, ?_, ?_, ?_⟩
  · simp [BTCPServer.handleDisconnect, hc, hs, hnb, callerRemoved]
    by_cases hcond : session.browserClient = none ∧ mdel session.agentClients clientId = []
    · simp [hcond]
    · simp [hcond]
  · simp [BTCPServer.handleDisconnect, hc, hs, hnb]
  · intro k hk
    simp [BTCPServer.handleDisconnect, hc, hs, hnb, callerRemoved]
    by_cases hcond : session.browserClient = none ∧ mdel session.agentClients clientId = []
    · simp [hcond, mget_mdel_of_ne _ _ _ hk]
    · simp [hcond, mget_mset_of_ne _ _ _ _ hk]
  · simp [BTCPServer.handleDisconnect, hc, hs, hnb]
    by_cases hcond : session.browserClient = none ∧ mdel session.agentClients clientId = []
    · simp [hcond]
    · simp [hcond]

/-- A caller attached directly under session id `"E"` (the shape of the
repository's own cleanup test). -/
def exCallerB : SSEClient := { id := "c2", ctype := ClientType.agent, sessionId := "E" }

/-- Session `"E"` with `exCallerB` as its only caller. -/
def exSessionEB : Session := { exSessionE with agentClients := [("c2", exCallerB)] }

/-- The relay state holding `exSessionEB` and both its peers. -/
def exStateB : ServerState :=
  { sessions := [("E", exSessionEB)], clients := [("b1", exBrowser), ("c2", exCallerB)] }

/-- C5 witness: the amended statement at the concrete state `exStateB`,
disconnecting the caller `"c2"` whose own attach-time session is `"E"`. -/
theorem claim5_witness :
    (BTCPServer.handleDisconnect exStateB "c2").1.sessions =
      (if (callerRemoved exSessionEB "c2").browserClient.isNone &&
          (callerRemoved exSessionEB "c2").agentClients.isEmpty
       then mdel exStateB.sessions exCallerB.sessionId
       else mset exStateB.sessions exCallerB.sessionId (callerRemoved exSessionEB "c2")) ∧
    (BTCPServer.handleDisconnect exStateB "c2").1.clients = mdel exStateB.clients "c2" ∧
    (∀ k, k ≠ exCallerB.sessionId →
      mget (BTCPServer.handleDisconnect exStateB "c2").1.sessions k =
        mget exStateB.sessions k) ∧
    (BTCPServer.handleDisconnect exStateB "c2").2 = [] :=
  claim5_amended_own_session_cleanup exStateB "c2" exCallerB exSessionEB rfl rfl rfl

/-!
## C6 — tools/register performs no sender check
-/

/-- The descriptor used to hijack the catalogue in the C6
counterexample. -/
def exTool : RValue := .obj [("name", .str "hijacked")]

/-- The `tools/register` request of the C6 counterexample. -/
def exRegisterMsg : JsonRpcMessage :=
  .request (.str "r1") "tools/register" (.obj [("tools", .arr [exTool])])

/-- C6 counterexample: in session `"E"` the provider is `exBrowser`, yet
a `tools/register` ingested with the caller `exCaller`'s client id — the
resolved sender is the caller, a different peer than the provider —
still replaces `session.tools`, which changes from `[]` to the attacker's
list. -/
theorem claim6_counterexample :
    BTCPServer.findSenderClient exState "E" (some "c1") = some exCaller ∧
    exCaller.ctype = ClientType.agent ∧
    exSessionE.browserClient = some exBrowser ∧
    exBrowser.id ≠ exCaller.id ∧
    exSessionE.tools = [] ∧
    (mget (BTCPServer.routeMessage exState "E" exRegisterMsg (some "c1")
      "int-1" 0).1.sessions "E").map Session.tools = some [exTool] := by
  refine ⟨rfl, rfl, rfl, by decide, rfl, rfl⟩

/-- C6 amended: a `tools/register` routed into a session with an attached
provider replaces `session.tools` wholesale **regardless of which peer
sent it** — the routing performs no sender check — so the descriptor list
is not mutated only by the session's current provider. -/
theorem claim6_amended_any_sender_registers
    (st : ServerState) (sessionId : String) (session : Session) (browser : SSEClient)
    (id : JsonRpcId) (tools : List RValue) (clientId : Option String)
    (internalId : String) (now : Nat)
    (hs : mget st.sessions sessionId = some session)
    (hb : session.browserClient = some browser) :
    (mget (BTCPServer.routeMessage st sessionId
      (.request id "tools/register" (.obj [("tools", .arr tools)])) clientId
      internalId now).1.sessions sessionId).map Session.tools = some tools := by
  simp [BTCPServer.routeMessage, BTCPServer.handleToolsRegister, hs, hb, putSession,
    lookupField, List.find?, mget_mset_self]

/-- C6 witness: the amended statement with the caller `exCaller` as the
registering sender. -/
theorem claim6_witness :
    (mget (BTCPServer.routeMessage exState "E"
      (.request (.str "r2") "tools/register" (.obj [("tools", .arr [exTool])]))
      (some "c1") "int-2" 0).1.sessions "E").map Session.tools = some [exTool] :=
  claim6_amended_any_sender_registers exState "E" exSessionE exBrowser (.str "r2")
    [exTool] (some "c1") "int-2" 0 rfl rfl

/-!
## C7 — the normalizer's image heuristic
-/

/-- A string that begins with a base64-shaped run of exactly 100
characters and then a character outside the base64 class. -/
def exMixedString : String := String.mk (List.replicate 100 'A') ++ "!"

/-- C7 counterexample: `exMixedString` begins with a base64-shaped run of
at least 100 characters and has no `data:image/` marker, so the claim
requires an image item — but the source regex must match the whole
first-200-character slice, which the trailing `!` breaks, and the
normalizer produces a text item. -/
theorem claim7_counterexample :
    100 ≤ exMixedString.data.length ∧
    (exMixedString.data.take 100).all isBase64Char = true ∧
    jsStartsWith exMixedString "data:image/" = false ∧
    normalizeResult (.str exMixedString) = [createTextContent exMixedString] ∧
    (normalizeResult (.str exMixedString)).map contentTypeTag = [some "text"] ∧
    [some ("text" : String)] ≠ [some "image"] := by
  refine ⟨by decide, by decide, by decide, rfl, rfl, by decide⟩

/-- C7 amended, a complete characterization of the normalizer: a
nonempty list whose first element is a content item passes through
unchanged (so a nonempty list of content items does; the empty list is
JSON-serialized into a text item like any other non-content list); a
single content item is wrapped in a one-element list; a string becomes an
image item — mime type inferred from its data-URI marker, png by
default — iff it starts with `data:image/` or it is at least 100
characters long and its first `min(200, length)` characters are **all**
base64-shaped; any other string becomes a text item; a non-content
object is JSON-serialized into a text item, and a remaining primitive is
stringified into one. -/
theorem claim7_amended_normalizer_characterization (v : RValue) :
    normalizeResult v =
      match v with
      | .arr (x :: xs) =>
        if isBTCPContent x then x :: xs
        else [createTextContent (jsonStringify (.arr (x :: xs)))]
      | .arr [] => [createTextContent (jsonStringify (.arr []))]
      | .str s =>
        if jsStartsWith s "data:image/" ||
           (decide (100 ≤ s.data.length) && (s.data.take 200).all isBase64Char)
        then [createImageContent s (detectImageMimeType s)]
        else [createTextContent s]
      | .obj fields =>
        if isBTCPContent (.obj fields) then [.obj fields]
        else [createTextContent (jsonStringify (.obj fields))]
      | .num n => [createTextContent (toString n)]
      | .bool b => [createTextContent (if b then "true" else "false")]
      | .null => [createTextContent "null"] := by
  cases v with
  | str s =>
    have hlen : (100 ≤ (s.data.take 200).length) ↔ (100 ≤ s.data.length) := by
      rw [List.length_take]
      omega
    simp only [normalizeResult, isBase64Image, decide_eq_decide.mpr hlen]
  | null => rfl
  | bool b => rfl
  | num n => rfl
  | arr elems => cases elems <;> rfl
  | obj fields => rfl

/-!
## C8 — both parse failures carry the parse-error code
-/

/-- Valid JSON that is not a JSON-RPC message: no `jsonrpc` field. -/
def exNonRpcValue : RValue := .obj [("foo", .str "bar")]

/-- C8 counterexample: a decoded value lacking `jsonrpc="2.0"` fails with
code `-32700` (`BTCPParseError`), not the invalid-request code `-32600`
the claim requires. -/
theorem claim8_counterexample :
    isValidJsonRpcMessage exNonRpcValue = false ∧
    exceptErrCode (parseMessage (some exNonRpcValue)) = some (-32700) ∧
    some (-32700 : Int) ≠ some (-32600 : Int) ∧
    ErrorCodes.INVALID_REQUEST = -32600 := by
  refine ⟨rfl, rfl, by decide, rfl⟩

/-- C8 amended: parsing fails with the parse-error kind (code `-32700`)
**both** when the input is not JSON and when the decoded value lacks
`jsonrpc="2.0"` — the invalid-request kind (`-32600`) is never produced
by `parseMessage`. -/
theorem claim8_amended_parse_error_both_cases
    (v : RValue) (hv : isValidJsonRpcMessage v = false) :
    parseMessage none =
      .error { code := ErrorCodes.PARSE_ERROR, message := "Failed to parse JSON-RPC message" } ∧
    parseMessage (some v) =
      .error { code := ErrorCodes.PARSE_ERROR, message := "Invalid JSON-RPC message structure" } ∧
    ErrorCodes.PARSE_ERROR = -32700 ∧
    (∀ e : BTCPErr, parseMessage (some v) = .error e → e.code ≠ ErrorCodes.INVALID_REQUEST) := by
  refine ⟨rfl, by simp [parseMessage, hv], rfl, ?_⟩
  intro e he
  rw [parseMessage, hv] at he
  simp at he
  rw [he.symm]
  decide

/-- C8 witness: the amended statement at the decoded value
`\x7bfoo:"bar"\x7d`. -/
theorem claim8_witness :
    parseMessage none =
      .error { code := ErrorCodes.PARSE_ERROR, message := "Failed to parse JSON-RPC message" } ∧
    parseMessage (some exNonRpcValue) =
      .error { code := ErrorCodes.PARSE_ERROR, message := "Invalid JSON-RPC message structure" } ∧
    ErrorCodes.PARSE_ERROR = -32700 ∧
    (∀ e : BTCPErr, parseMessage (some exNonRpcValue) = .error e →
      e.code ≠ ErrorCodes.INVALID_REQUEST) :=
  claim8_amended_parse_error_both_cases exNonRpcValue rfl

/-!
## C9 — disconnect() does not cancel pending local requests
-/

/-- A client with one in-flight local request `"r1"`. -/
def exClientState : ClientState :=
  { eventSourceOpen := true, connected := true, reconnectAttempts := 0
    maxReconnectAttempts := 5, autoReconnect := true, reconnectDelay := 1000
    pendingRequests := [("r1", 42)] }

/-- C9 counterexample: calling `disconnect()` with request `"r1"` in
flight leaves the pending table untouched and issues **no** rejection at
all — in particular none of kind connection (`-32000`) — refuting the
cancellation clause of the claim. -/
theorem claim9_counterexample :
    (BTCPClient.disconnect exClientState).1.pendingRequests = [("r1", 42)] ∧
    (BTCPClient.disconnect exClientState).2.rejections = [] ∧
    (BTCPClient.disconnect exClientState).1.eventSourceOpen = false ∧
    ErrorCodes.CONNECTION_ERROR = -32000 := by
  refine ⟨rfl, rfl, rfl, rfl⟩

/-- C9 amended: `disconnect()` closes the push channel and inhibits
auto-reconnect (it sets `reconnectAttempts` to `maxReconnectAttempts`,
after which `handleReconnect` schedules nothing) — but it does **not**
cancel pending local requests: the pending table is left untouched and no
rejection is issued; each pending request later fails through its own
timer, with the timeout kind (`-32001`), not the connection kind. -/
theorem claim9_amended_no_cancellation
    (st : ClientState) (id : String) (t : Nat)
    (hp : st.pendingRequests.find? (fun p => p.1 == id) = some (id, t)) :
    (BTCPClient.disconnect st).1.pendingRequests = st.pendingRequests ∧
    (BTCPClient.disconnect st).2.rejections = [] ∧
    (BTCPClient.disconnect st).1.eventSourceOpen = false ∧
    (BTCPClient.disconnect st).1.connected = false ∧
    (BTCPClient.handleReconnect (BTCPClient.disconnect st).1).2 = none ∧
    (BTCPClient.requestTimeoutFire (BTCPClient.disconnect st).1 id).2 =
      [(id, ErrorCodes.TIMEOUT_ERROR)] ∧
    ErrorCodes.TIMEOUT_ERROR = -32001 := by
  refine ⟨rfl, rfl, rfl, rfl, ?_, ?_, rfl⟩
  · cases har : st.autoReconnect <;>
      simp [BTCPClient.handleReconnect, BTCPClient.disconnect, har]
  · simp [BTCPClient.requestTimeoutFire, BTCPClient.disconnect, hp]

/-- C9 witness: the amended statement at `exClientState` and request
`"r1"`. -/
theorem claim9_witness :
    (BTCPClient.disconnect exClientState).1.pendingRequests =
      exClientState.pendingRequests ∧
    (BTCPClient.disconnect exClientState).2.rejections = [] ∧
    (BTCPClient.disconnect exClientState).1.eventSourceOpen = false ∧
    (BTCPClient.disconnect exClientState).1.connected = false ∧
    (BTCPClient.handleReconnect (BTCPClient.disconnect exClientState).1).2 = none ∧
    (BTCPClient.requestTimeoutFire (BTCPClient.disconnect exClientState).1 "r1").2 =
      [("r1", ErrorCodes.TIMEOUT_ERROR)] ∧
    ErrorCodes.TIMEOUT_ERROR = -32001 :=
  claim9_amended_no_cancellation exClientState "r1" 42 rfl

/-!
## C10 — pushing to a peer never fails
-/

/-- C10: `sendToClient` is a total function on the channel state — no
input raises.  On a channel whose response stream has already ended it is
the identity (the message is silently dropped); on an open channel it
writes exactly one SSE data frame containing the serialized message and
leaves the stream open. -/
theorem claim10_send_never_fails (ch : SSEChannel) (message : JsonRpcMessage) :
    (BTCPServer.sendToClient ch message).writableEnded = ch.writableEnded ∧
    (BTCPServer.sendToClient ch message).frames =
      ch.frames ++ (if ch.writableEnded then []
                    else ["data: " ++ serializeMessage message ++ "\n\n"]) := by
  cases h : ch.writableEnded <;> simp [BTCPServer.sendToClient, h]
